import Mathlib

/-!
Shallow embedding of the streamlit-app repository (src/app.py,
src/dbx_serving_client.py, src/unity_catalog_tools.py) used to settle the
frozen specification claims.  Definitions mirror the Python source; theorems
follow at the end of the file.
-/

set_option maxRecDepth 4000

/-- JSON values as produced by `r.json()` / `json.loads`: object keys are
strings, numbers are restricted to integers (no payload examined by any claim
uses floating point). -/
inductive Json where
  | null : Json
  | bool : Bool → Json
  | num : Int → Json
  | str : String → Json
  | arr : List Json → Json
  | obj : List (String × Json) → Json
deriving Repr

/-- Decidable equality of JSON values (nested inductive, so written by hand). -/
def Json.beq : Json → Json → Bool
  | .null, .null => true
  | .bool a, .bool b => a == b
  | .num a, .num b => a == b
  | .str a, .str b => a == b
  | .arr a, .arr b => beqList a b
  | .obj a, .obj b => beqMembers a b
  | _, _ => false
where
  beqList : List Json → List Json → Bool
    | [], [] => true
    | x :: xs, y :: ys => Json.beq x y && beqList xs ys
    | _, _ => false
  beqMembers : List (String × Json) → List (String × Json) → Bool
    | [], [] => true
    | (k, x) :: xs, (l, y) :: ys => k == l && Json.beq x y && beqMembers xs ys
    | _, _ => false

instance : BEq Json := ⟨Json.beq⟩

/-- Python `obj[key]` for a string key: succeeds only on a dict containing the
key (first binding; JSON dicts have unique keys); any other receiver raises
`TypeError`/`KeyError`, which the source catches. -/
def jsonGetKey (o : Json) (k : String) : Option Json :=
  match o with
  | .obj kvs => kvs.lookup k
  | _ => none

/-- Python `obj[0]`: element 0 of a list, first character of a non-empty
string (as a 1-character string); everything else raises, which the source
catches. -/
def jsonIdxZero (o : Json) : Option Json :=
  match o with
  | .arr (x :: _) => some x
  | .str s =>
    match s.data with
    | c :: _ => some (.str (String.mk [c]))
    | [] => none
  | _ => none

/-- Hex digit used when serializing control characters. -/
def hexDigitChar (n : Nat) : Char :=
  if n < 10 then Char.ofNat (48 + n) else Char.ofNat (87 + n)

/-- Escaping of a single character inside a JSON string literal, as
`json.dumps` (ensure_ascii=False) does. -/
def jsonEscapeChar (c : Char) : String :=
  if c = '"' then "\\\""
  else if c = '\\' then "\\\\"
  else if c = '\n' then "\\n"
  else if c = '\t' then "\\t"
  else if c = '\r' then "\\r"
  else if c.toNat < 32 then
    String.mk ['\\', 'u', '0', '0', hexDigitChar (c.toNat / 16), hexDigitChar (c.toNat % 16)]
  else String.singleton c

/-- Escaping of a whole string for `json.dumps`. -/
def jsonEscapeString (s : String) : String :=
  s.data.foldl (fun acc c => acc ++ jsonEscapeChar c) ""

/-- Indentation prefix at nesting depth `level` for `json.dumps(..., indent=2)`. -/
def jsonIndent (level : Nat) : String :=
  String.mk (List.replicate (2 * level) ' ')

mutual

/-- Serialization of a JSON value exactly as
`json.dumps(obj, ensure_ascii=False, indent=2)` renders it (src/app.py line 92). -/
def jsonDumpsVal (level : Nat) : Json → String
  | .null => "null"
  | .bool b => if b then "true" else "false"
  | .num n => toString n
  | .str s => "\"" ++ jsonEscapeString s ++ "\""
  | .arr [] => "[]"
  | .arr (x :: xs) =>
    "[\n" ++ jsonDumpsItems (level + 1) x xs ++ "\n" ++ jsonIndent level ++ "]"
  | .obj [] => "\x7b\x7d"
  | .obj (kv :: kvs) =>
    "\x7b\n" ++ jsonDumpsMembers (level + 1) kv kvs ++ "\n" ++ jsonIndent level ++ "\x7d"
termination_by j => sizeOf j

/-- Comma-and-newline separated items of a serialized JSON array. -/
def jsonDumpsItems (level : Nat) (x : Json) : List Json → String
  | [] => jsonIndent level ++ jsonDumpsVal level x
  | y :: ys => jsonIndent level ++ jsonDumpsVal level x ++ ",\n" ++ jsonDumpsItems level y ys
termination_by ys => sizeOf x + sizeOf ys

/-- Comma-and-newline separated members of a serialized JSON object. -/
def jsonDumpsMembers (level : Nat) (kv : String × Json) : List (String × Json) → String
  | [] => jsonIndent level ++ "\"" ++ jsonEscapeString kv.1 ++ "\": " ++ jsonDumpsVal level kv.2
  | kv2 :: kvs =>
    jsonIndent level ++ "\"" ++ jsonEscapeString kv.1 ++ "\": " ++ jsonDumpsVal level kv.2 ++
      ",\n" ++ jsonDumpsMembers level kv2 kvs
termination_by kvs => sizeOf kv + sizeOf kvs
decreasing_by all_goals (cases kv; simp_wf; omega)

end

/-- Top-level `json.dumps(obj, ensure_ascii=False, indent=2)`. -/
def json_dumps (obj : Json) : String :=
  jsonDumpsVal 0 obj

/-- Extraction shape 2 of src/app.py `extract_text_from_response` (lines 68-71):
`obj["choices"][0]["message"]["content"]`.  Python returns whatever value sits
at that path (not necessarily a string); any indexing failure is caught. -/
def extractChoicesMessageContent (obj : Json) : Option Json := do
  let choices ← jsonGetKey obj "choices"
  let first ← jsonIdxZero choices
  let message ← jsonGetKey first "message"
  jsonGetKey message "content"

/-- Extraction shape 3 (lines 74-77): `obj["choices"][0]["text"]`. -/
def extractChoicesText (obj : Json) : Option Json := do
  let choices ← jsonGetKey obj "choices"
  let first ← jsonIdxZero choices
  jsonGetKey first "text"

/-- One `p.get("text", "")` step of shape 4: succeeds with the fragment when
`p` is a dict whose "text" value is absent (contributing `""`) or a string;
any other shape makes the surrounding `"".join` raise, which is caught. -/
def partFragment (p : Json) : Option String :=
  match p with
  | .obj kvs =>
    match kvs.lookup "text" with
    | none => some ""
    | some (.str s) => some s
    | some _ => none
  | _ => none

/-- Extraction shape 4 (lines 80-84):
`"".join(p.get("text", "") for p in obj["candidates"][0]["content"]["parts"])`. -/
def extractCandidatesParts (obj : Json) : Option String := do
  let candidates ← jsonGetKey obj "candidates"
  let first ← jsonIdxZero candidates
  let content ← jsonGetKey first "content"
  let parts ← jsonGetKey content "parts"
  match parts with
  | .arr ps => (ps.mapM partFragment).map String.join
  | _ => none

/-- Extraction shape 5 (lines 87-89): the first of the flat keys
`output_text`, `generated_text`, `text`, `response` that is present with a
string value. -/
def extractFlatKeys (obj : Json) : Option String :=
  match obj with
  | .obj _ =>
    ["output_text", "generated_text", "text", "response"].firstM fun key =>
      match jsonGetKey obj key with
      | some (.str s) => some s
      | _ => none
  | _ => none

/-- Fallback chain of `extract_text_from_response` after the `isinstance(obj,
str)` test: shapes 2-5 in order, then the `json.dumps` dump (line 92). -/
def extractAfterStr (obj : Json) : Json :=
  match extractChoicesMessageContent obj with
  | some v => v
  | none =>
    match extractChoicesText obj with
    | some v => v
    | none =>
      match extractCandidatesParts obj with
      | some s => .str s
      | none =>
        match extractFlatKeys obj with
        | some s => .str s
        | none => .str (json_dumps obj)

/-- Embedding of src/app.py `extract_text_from_response` (lines 59-92).  The
result is the Python value returned: a string in every branch except shapes
2/3, which return whatever value sits at the probed path. -/
def extract_text_from_response (obj : Json) : Json :=
  match obj with
  | .str s => .str s
  | _ => extractAfterStr obj

/-- JSON whitespace, as the `json` module skips it. -/
def isJsonWs (c : Char) : Bool :=
  c == ' ' || c == '\t' || c == '\n' || c == '\r'

/-- Drop leading JSON whitespace. -/
def skipJsonWs : List Char → List Char
  | [] => []
  | c :: cs => if isJsonWs c then skipJsonWs cs else c :: cs

/-- Body of a JSON string literal after the opening quote; recognizes the
single-character escapes.  Inputs outside this fragment (\\u escapes, raw
control characters) are treated as unparseable, which only narrows the set of
argument strings the theorems below accept as well-formed. -/
def parseJsonStringBody : List Char → Option (String × List Char)
  | [] => none
  | c :: cs =>
    if c = '"' then some ("", cs)
    else if c = '\\' then
      match cs with
      | [] => none
      | e :: cs2 =>
        let esc : Option Char :=
          if e = '"' then some '"'
          else if e = '\\' then some '\\'
          else if e = '/' then some '/'
          else if e = 'n' then some '\n'
          else if e = 't' then some '\t'
          else if e = 'r' then some '\r'
          else if e = 'b' then some (Char.ofNat 8)
          else if e = 'f' then some (Char.ofNat 12)
          else none
        match esc with
        | none => none
        | some ch =>
          match parseJsonStringBody cs2 with
          | some (s, rest) => some (String.singleton ch ++ s, rest)
          | none => none
    else if c.toNat < 32 then none
    else
      match parseJsonStringBody cs with
      | some (s, rest) => some (String.singleton c ++ s, rest)
      | none => none

/-- Longest prefix of decimal digits. -/
def takeDigits : List Char → List Char × List Char
  | [] => ([], [])
  | c :: cs =>
    if c.isDigit then
      let (ds, rest) := takeDigits cs
      (c :: ds, rest)
    else ([], c :: cs)

/-- Numeric value of a digit list. -/
def digitsToNat (ds : List Char) : Nat :=
  ds.foldl (fun acc c => acc * 10 + (c.toNat - 48)) 0

/-- JSON integer literal.  Floating-point and exponent forms are treated as
unparseable (strictly narrower than `json.loads`, never laxer: leading zeros
are rejected as Python rejects them in this position). -/
def parseJsonNumber (cs : List Char) : Option (Json × List Char) :=
  let signed := match cs with
    | '-' :: rest => (true, rest)
    | _ => (false, cs)
  let (ds, rest) := takeDigits signed.2
  if ds.isEmpty then none
  else if ds.length > 1 && ds.headD '0' = '0' then none
  else
    match rest with
    | '.' :: _ => none
    | 'e' :: _ => none
    | 'E' :: _ => none
    | _ =>
      let n : Int := Int.ofNat (digitsToNat ds)
      some (.num (if signed.1 then -n else n), rest)

mutual

/-- Fueled recursive-descent JSON value parser embedding `json.loads`
(restricted to the integer fragment; see `parseJsonStringBody`,
`parseJsonNumber`).  Insufficient fuel yields `none`, which again only
narrows what counts as well-formed. -/
def parseJsonValue : Nat → List Char → Option (Json × List Char)
  | 0, _ => none
  | _ + 1, [] => none
  | fuel + 1, c :: cs =>
    if c = '{' then
      match skipJsonWs cs with
      | '}' :: rest => some (.obj [], rest)
      | cs1 => parseJsonMembers fuel cs1 []
    else if c = '[' then
      match skipJsonWs cs with
      | ']' :: rest => some (.arr [], rest)
      | cs1 => parseJsonItems fuel cs1 []
    else if c = '"' then
      match parseJsonStringBody cs with
      | some (s, rest) => some (.str s, rest)
      | none => none
    else if c = 't' then
      match cs with
      | 'r' :: 'u' :: 'e' :: rest => some (.bool true, rest)
      | _ => none
    else if c = 'f' then
      match cs with
      | 'a' :: 'l' :: 's' :: 'e' :: rest => some (.bool false, rest)
      | _ => none
    else if c = 'n' then
      match cs with
      | 'u' :: 'l' :: 'l' :: rest => some (.null, rest)
      | _ => none
    else parseJsonNumber (c :: cs)

/-- Members of a JSON object after the opening brace (non-empty case). -/
def parseJsonMembers : Nat → List Char → List (String × Json) → Option (Json × List Char)
  | 0, _, _ => none
  | fuel + 1, cs, acc =>
    match cs with
    | '"' :: cs1 =>
      match parseJsonStringBody cs1 with
      | none => none
      | some (k, cs2) =>
        match skipJsonWs cs2 with
        | ':' :: cs3 =>
          match parseJsonValue fuel (skipJsonWs cs3) with
          | none => none
          | some (v, cs4) =>
            match skipJsonWs cs4 with
            | ',' :: cs5 => parseJsonMembers fuel (skipJsonWs cs5) (acc ++ [(k, v)])
            | '}' :: cs5 => some (.obj (acc ++ [(k, v)]), cs5)
            | _ => none
        | _ => none
    | _ => none

/-- Items of a JSON array after the opening bracket (non-empty case). -/
def parseJsonItems : Nat → List Char → List Json → Option (Json × List Char)
  | 0, _, _ => none
  | fuel + 1, cs, acc =>
    match parseJsonValue fuel cs with
    | none => none
    | some (v, cs1) =>
      match skipJsonWs cs1 with
      | ',' :: cs2 => parseJsonItems fuel (skipJsonWs cs2) (acc ++ [v])
      | ']' :: cs2 => some (.arr (acc ++ [v]), cs2)
      | _ => none

end

/-- Embedding of Python `json.loads` (src/dbx_serving_client.py line 116): a
whole-input parse of a JSON value, `none` standing for a raised
`json.JSONDecodeError`. -/
def json_loads (s : String) : Option Json :=
  match parseJsonValue (s.data.length + 1) (skipJsonWs s.data) with
  | some (v, rest) =>
    match skipJsonWs rest with
    | [] => some v
    | _ => none
  | none => none

/-- The `function` member of a tool call: `tc.function.name` /
`tc.function.arguments` (the arguments are the raw JSON string the model
emitted). -/
structure ToolCallFunction where
  name : String
  arguments : String
deriving DecidableEq, Repr

/-- One tool-call request from a model response (`tc.id`, `tc.type`,
`tc.function`). -/
structure ToolCall where
  id : String
  type : String
  function : ToolCallFunction
deriving DecidableEq, Repr

/-- One conversation message dict.  Caller-supplied messages carry only
`role`/`content`; the orchestrator's assistant message additionally carries
`tool_calls` and the tool messages carry `tool_call_id`. -/
structure Message where
  role : String
  content : Option String
  tool_call_id : Option String
  tool_calls : List ToolCall
deriving DecidableEq, Repr

/-- A plain `{"role": r, "content": c}` dict as src/app.py builds them. -/
def mkChatMessage (role content : String) : Message :=
  ⟨role, some content, none, []⟩

/-- The `response.choices[0].message` the orchestrator inspects: `content`
(nullable) and `tool_calls`, where `None` and the empty list behave
identically under Python truthiness and are both modelled as `[]`. -/
structure ModelMessage where
  content : Option String
  tool_calls : List ToolCall
deriving DecidableEq, Repr

/-- Exceptions that can escape `send_chat_with_tools`:
`json.loads(tool_call.function.arguments)` at src/dbx_serving_client.py line
116 is the only raise site in the embedded fragment, and it sits outside the
`try` of lines 119-125. -/
inductive OrchError where
  | jsonDecodeError (arguments : String)
deriving DecidableEq, Repr

/-- The fixed degraded-response text returned when the iteration budget is
exhausted (src/dbx_serving_client.py line 138). -/
def iterationLimitApology : String :=
  "申し訳ありませんが、処理が制限回数に達しました。"

/-- The assistant message appended at lines 97-111: role assistant, the model
content, and the tool calls re-serialized as dicts. -/
def assistantMessageOf (message : ModelMessage) : Message :=
  ⟨"assistant", message.content, none,
    message.tool_calls.map fun tc => ⟨tc.id, tc.type, ⟨tc.function.name, tc.function.arguments⟩⟩⟩

/-- The tool-execution loop of lines 114-132: for each tool call, in order,
parse its arguments (`json.loads`, line 116 — a parse failure raises and
aborts the whole call), execute the tool with the `try`/`except` of lines
119-125 converting tool exceptions into `"Error executing tool: ..."` text,
and build the tool-role message of lines 128-132.  `toolExec` is the injected
`uc_client.execute_tool` collaborator. -/
def runToolCalls (toolExec : String → Json → Except String String) :
    List ToolCall → Except OrchError (List Message)
  | [] => .ok []
  | tc :: rest =>
    match json_loads tc.function.arguments with
    | none => .error (.jsonDecodeError tc.function.arguments)
    | some function_args =>
      let tool_result :=
        match toolExec tc.function.name function_args with
        | .ok s => s
        | .error e => "Error executing tool: " ++ e
      match runToolCalls toolExec rest with
      | .error e => .error e
      | .ok msgs => .ok (⟨"tool", some tool_result, some tc.id, []⟩ :: msgs)

/-- The `for iteration in range(max_iterations)` loop of
src/dbx_serving_client.py lines 81-138, with the serving call
(`client.chat.completions.create`, returning `choices[0].message`) abstracted
as the `oracle` collaborator.  Returns the result (or the escaped exception)
together with the number of model round-trips performed. -/
def sendChatWithToolsLoop (oracle : List Message → ModelMessage)
    (toolExec : String → Json → Except String String) :
    Nat → List Message → Except OrchError String × Nat
  | 0, _ => (.ok iterationLimitApology, 0)
  | n + 1, working_messages =>
    let message := oracle working_messages
    if message.tool_calls.isEmpty then
      (.ok (message.content.getD ""), 1)
    else
      let working1 := working_messages ++ [assistantMessageOf message]
      match runToolCalls toolExec message.tool_calls with
      | .error e => (.error e, 1)
      | .ok toolMsgs =>
        let out := sendChatWithToolsLoop oracle toolExec n (working1 ++ toolMsgs)
        (out.1, out.2 + 1)

/-- Result of one `send_chat_with_tools` call: the returned text (or escaped
exception), the number of model round-trips, and the caller's message list
after the call returns. -/
structure ChatWithToolsRun where
  result : Except OrchError String
  modelCalls : Nat
  messagesAfter : List Message
deriving Repr

/-- Embedding of `send_chat_with_tools` (src/dbx_serving_client.py lines
48-138) with a configured tool registry (`uc_client` set, so the plain-chat
fallback of lines 73-74 is not taken).  Line 79 copies the caller's list
(`working_messages = messages.copy()`) and the appends at lines 97 and 128
target only that copy, so the caller's `messages` object is returned
unchanged. -/
def send_chat_with_tools (oracle : List Message → ModelMessage)
    (toolExec : String → Json → Except String String)
    (messages : List Message) (max_iterations : Nat) : ChatWithToolsRun :=
  let working_messages := messages
  let out := sendChatWithToolsLoop oracle toolExec max_iterations working_messages
  ⟨out.1, out.2, messages⟩

/-- Initial conversation of src/app.py line 107/114:
`[{"role": "system", "content": system_prompt}]`. -/
def initMessages (system_prompt : String) : List Message :=
  [mkChatMessage "system" system_prompt]

/-- The configuration-change update of src/app.py line 117:
`st.session_state.messages[0] = {"role": "system", "content": system_prompt}`.
The empty case is unreachable (Python would raise `IndexError`); the
conversation is never empty. -/
def replaceSystem (system_prompt : String) : List Message → List Message
  | [] => []
  | _ :: rest => mkChatMessage "system" system_prompt :: rest

/-- The chat-input block of src/app.py lines 132-149: when a prompt is
submitted, a user message and then the assistant reply (the serving-call
result or the `"Error: ..."` text) are appended. -/
def appendTurn (turn : Option (String × String)) (ms : List Message) : List Message :=
  match turn with
  | none => ms
  | some (prompt, reply) => ms ++ [mkChatMessage "user" prompt] ++ [mkChatMessage "assistant" reply]

/-- One top-to-bottom run of the src/app.py script: initialize the
conversation on the first run (line 114), otherwise replace the system
message at index 0 (line 117); then handle an optional submitted prompt. -/
def scriptRun (fresh : Bool) (system_prompt : String) (turn : Option (String × String))
    (ms : List Message) : List Message :=
  appendTurn turn (if fresh then initMessages system_prompt else replaceSystem system_prompt ms)

/-- The Clear-chat button of src/app.py lines 106-108: reset to the single
system message (the `st.rerun()` that follows is a subsequent `scriptRun`). -/
def clearChat (system_prompt : String) : List Message :=
  initMessages system_prompt

/-- Conversation states reachable through the src/app.py session lifecycle. -/
inductive ReachableConversation : List Message → Prop where
  | first (p : String) (turn : Option (String × String)) :
      ReachableConversation (scriptRun true p turn [])
  | next (p : String) (turn : Option (String × String)) {ms : List Message} :
      ReachableConversation ms → ReachableConversation (scriptRun false p turn ms)
  | clear (p : String) {ms : List Message} :
      ReachableConversation ms → ReachableConversation (clearChat p)

/-- Python truthiness test `not x` for an optional string: true for a missing
value and for the empty string. -/
def pyFalsyStr : Option String → Bool
  | none => true
  | some s => s == ""

/-- One column of the statement-execution result manifest; the code reads
`col.name` (src/unity_catalog_tools.py line 114). -/
structure ManifestColumn where
  name : String
deriving DecidableEq, Repr

/-- The `manifest.schema` object with its optional column list. -/
structure ManifestSchema where
  columns : Option (List ManifestColumn)
deriving DecidableEq, Repr

/-- The `manifest` object of the statement-execution result. -/
structure ResultManifest where
  schema : Option ManifestSchema
deriving DecidableEq, Repr

/-- The row payload: `data_array` is the optional list of rows, each a list of
optional string cells. -/
structure ResultData where
  data_array : Option (List (List (Option String)))
deriving DecidableEq, Repr

/-- The object bound to `result = response.result` at line 109, carrying the
`manifest` and `result` attributes the code reads at lines 113 and 118. -/
structure StatementResult where
  manifest : Option ResultManifest
  result : Option ResultData
deriving DecidableEq, Repr

/-- The `execute_statement` response; `response.result` may be absent, in
which case the attribute accesses at line 113 raise. -/
structure StatementResponse where
  result : Option StatementResult
deriving DecidableEq, Repr

/-- The `{"columns": ..., "rows": ...}` dict returned by `_execute_sql`. -/
structure SqlResult where
  columns : List String
  rows : List (List (Option String))
deriving DecidableEq, Repr

/-- Wrapper applied by the `except` handler of src/unity_catalog_tools.py
line 127 to every failure inside `_execute_sql`:
`RuntimeError(f"SQL の実行に失敗しました: {str(e)}")`. -/
def sqlFailureWrap (inner : String) : String :=
  "SQL の実行に失敗しました: " ++ inner

/-- Message of the `RuntimeError` raised at line 97 when the WAREHOUSE_ID
environment variable is unset. -/
def warehouseUnsetMessage : String :=
  "環境変数 WAREHOUSE_ID が設定されていません"

/-- Embedding of `UnityCatalogClient._execute_sql` (src/unity_catalog_tools.py
lines 77-127).  `warehouse_id` is `os.environ.get("WAREHOUSE_ID")`;
`execute_statement` is the injected SDK call (its `.error` is the message of
whatever exception it raised).  Every raise inside the `try` — including the
missing-WAREHOUSE_ID `RuntimeError` of line 97 — is caught at line 126 and
re-raised wrapped by `sqlFailureWrap`. -/
def _execute_sql (warehouse_id : Option String)
    (execute_statement : Except String StatementResponse) : Except String SqlResult :=
  if pyFalsyStr warehouse_id then
    .error (sqlFailureWrap warehouseUnsetMessage)
  else
    match execute_statement with
    | .error e => .error (sqlFailureWrap e)
    | .ok response =>
      match response.result with
      | none =>
        .error (sqlFailureWrap "'NoneType' object has no attribute 'manifest'")
      | some result =>
        let columns : List String :=
          match result.manifest with
          | some manifest =>
            match manifest.schema with
            | some schema =>
              match schema.columns with
              | some cols => if cols.isEmpty then [] else cols.map fun col => col.name
              | none => []
            | none => []
          | none => []
        let rows : List (List (Option String)) :=
          match result.result with
          | some data =>
            match data.data_array with
            | some arr => if arr.isEmpty then [] else arr
            | none => []
          | none => []
        .ok ⟨columns, rows⟩

/-- One `{"source": ..., "target": ...}` column pair of a relationship edge.
Cell values come from SQL rows, so they are optional strings. -/
structure ColumnPair where
  source : Option String
  target : Option String
deriving DecidableEq, Repr

/-- One entry of the `referenced_by` / `references` dicts of
`get_related_tables`: peer table, constraint identifier, and the collected
column pairs. -/
structure RelationshipEdge where
  table : Option String
  constraint : Option String
  columns : List ColumnPair
deriving DecidableEq, Repr

/-- Python tuple unpacking `a, b, c, d = row` for a SQL row; a row of any
other arity raises `ValueError`. -/
def unpack4 (row : List (Option String)) :
    Except String (Option String × Option String × Option String × Option String) :=
  match row with
  | [a, b, c, d] => .ok (a, b, c, d)
  | _ =>
    if row.length < 4 then
      .error ("not enough values to unpack (expected 4, got " ++ toString row.length ++ ")")
    else .error "too many values to unpack (expected 4)"

/-- The per-row dict update of src/unity_catalog_tools.py lines 224-233 /
239-248: insert an empty edge for an unseen constraint identifier, then append
the row's column pair to the edge with that identifier.  The dict keyed by
constraint name is modelled as an insertion-ordered list of edges with
pairwise-distinct constraints. -/
def insertEdge (acc : List RelationshipEdge) (tbl key : Option String)
    (pair : ColumnPair) : List RelationshipEdge :=
  let acc1 := if key ∈ acc.map RelationshipEdge.constraint then acc else acc ++ [⟨tbl, key, []⟩]
  acc1.map fun e => if e.constraint = key then ⟨e.table, e.constraint, e.columns ++ [pair]⟩ else e

/-- The `referenced_by` grouping loop (lines 221-233): each row unpacks as
`source_table, constraint_name, source_column, target_column`. -/
def groupReferencedByGo (acc : List RelationshipEdge) :
    List (List (Option String)) → Except String (List RelationshipEdge)
  | [] => .ok acc
  | row :: rest =>
    match unpack4 row with
    | .error e => .error e
    | .ok (source_table, constraint_name, source_column, target_column) =>
      groupReferencedByGo
        (insertEdge acc source_table constraint_name ⟨source_column, target_column⟩) rest

/-- Grouping of the `referenced_by` query rows into edges. -/
def group_referenced_by (rows : List (List (Option String))) :
    Except String (List RelationshipEdge) :=
  groupReferencedByGo [] rows

/-- The `references` grouping loop (lines 236-248): each row unpacks as
`constraint_name, source_column, target_table, target_column`. -/
def groupReferencesGo (acc : List RelationshipEdge) :
    List (List (Option String)) → Except String (List RelationshipEdge)
  | [] => .ok acc
  | row :: rest =>
    match unpack4 row with
    | .error e => .error e
    | .ok (constraint_name, source_column, target_table, target_column) =>
      groupReferencesGo
        (insertEdge acc target_table constraint_name ⟨source_column, target_column⟩) rest

/-- Grouping of the `references` query rows into edges. -/
def group_references (rows : List (List (Option String))) :
    Except String (List RelationshipEdge) :=
  groupReferencesGo [] rows

/-- The dict returned by `get_related_tables` (lines 250-254). -/
structure RelatedTables where
  table : String
  referenced_by : List RelationshipEdge
  references : List RelationshipEdge
deriving Repr

/-- Python `f"{x}"` on an optional string cell: `None` renders as `"None"`. -/
def pyStrOpt : Option String → String
  | none => "None"
  | some s => s

/-- One `{"name", "table_type", "comment"}` entry returned by `list_tables`. -/
structure TableEntry where
  name : String
  table_type : String
  comment : String
deriving DecidableEq, Repr

/-- One column dict of `get_table_details`. -/
structure ColumnDetail where
  name : String
  type : String
  comment : String
deriving DecidableEq, Repr

/-- The dict returned by `get_table_details`. -/
structure TableDetails where
  full_name : String
  name : String
  catalog : String
  schema : String
  table_type : String
  comment : String
  columns : List ColumnDetail
deriving DecidableEq, Repr

/-- The `list_tables` formatting of src/unity_catalog_tools.py lines 279-290. -/
def formatListTables (catalog schema : String) (tables : List TableEntry) : String :=
  if tables.isEmpty then
    "スキーマ " ++ catalog ++ "." ++ schema ++ " にはテーブルが見つかりませんでした。"
  else
    "スキーマ " ++ catalog ++ "." ++ schema ++ " 内のテーブル一覧:\n\n" ++
      String.join (tables.map fun table =>
        "- " ++ table.name ++ " (" ++ table.table_type ++ ")" ++
          (if table.comment == "" then "" else ": " ++ table.comment) ++ "\n")

/-- The `get_table_details` formatting of lines 302-315. -/
def formatTableDetails (details : TableDetails) : String :=
  "テーブル: " ++ details.full_name ++ "\n" ++
    "タイプ: " ++ details.table_type ++ "\n" ++
    (if details.comment == "" then "" else "説明: " ++ details.comment ++ "\n") ++
    "\nカラム情報:\n" ++
    String.join (details.columns.map fun col =>
      "- " ++ col.name ++ " (" ++ col.type ++ ")" ++
        (if col.comment == "" then "" else ": " ++ col.comment) ++ "\n")

/-- The `get_related_tables` formatting of lines 328-353. -/
def formatRelatedTables (catalog schema table : String) (related : RelatedTables) : String :=
  "テーブル " ++ catalog ++ "." ++ schema ++ "." ++ table ++ " の関連情報:\n\n" ++
    (if related.referenced_by.isEmpty then
      "【このテーブルを参照しているテーブル】\n（なし）\n\n"
    else
      "【このテーブルを参照しているテーブル】\n" ++
        String.join (related.referenced_by.map fun ref =>
          "- " ++ pyStrOpt ref.table ++ " (制約: " ++ pyStrOpt ref.constraint ++ ")\n" ++
            String.join (ref.columns.map fun col =>
              "  " ++ pyStrOpt ref.table ++ "." ++ pyStrOpt col.source ++ " → " ++
                table ++ "." ++ pyStrOpt col.target ++ "\n")) ++ "\n") ++
    (if related.references.isEmpty then
      "【このテーブルが参照しているテーブル】\n（なし）\n\n"
    else
      "【このテーブルが参照しているテーブル】\n" ++
        String.join (related.references.map fun ref =>
          "- " ++ pyStrOpt ref.table ++ " (制約: " ++ pyStrOpt ref.constraint ++ ")\n" ++
            String.join (ref.columns.map fun col =>
              "  " ++ table ++ "." ++ pyStrOpt col.source ++ " → " ++
                pyStrOpt ref.table ++ "." ++ pyStrOpt col.target ++ "\n")) ++ "\n")

/-- The underlying metadata operations `execute_tool` dispatches to
(`list_tables`, `get_table_details`, `get_related_tables` of
`UnityCatalogClient`); each raises `RuntimeError` on failure (the `.error`
message), which the handler at line 357 formats. -/
structure UCOps where
  list_tables : String → String → Except String (List TableEntry)
  get_table_details : String → String → String → Except String TableDetails
  get_related_tables : String → String → String → Except String RelatedTables

/-- Python `arguments.get(k)` on the tool-arguments dict, whose values are
strings per the declared tool parameter schemas. -/
def getArg (arguments : List (String × String)) (k : String) : Option String :=
  arguments.lookup k

/-- Embedding of `UnityCatalogClient.execute_tool` (src/unity_catalog_tools.py
lines 259-362): validate required arguments (Python truthiness, so a missing
key and an empty string are both rejected), dispatch by exact name, format
results; the `except RuntimeError` handler of line 357 converts underlying
failures to `"エラー: ..."` text, and an unknown tool name yields the
`"Error: 不明なツール名 ..."` text of line 355.  Total by construction: every
branch returns a string, mirroring the catch-all handlers. -/
def execute_tool (ops : UCOps) (tool_name : String)
    (arguments : List (String × String)) : String :=
  if tool_name = "list_tables" then
    match getArg arguments "catalog", getArg arguments "schema" with
    | some catalog, some schema =>
      if catalog = "" ∨ schema = "" then "Error: catalog と schema は必須パラメータです"
      else
        match ops.list_tables catalog schema with
        | .error e => "エラー: " ++ e
        | .ok tables => formatListTables catalog schema tables
    | _, _ => "Error: catalog と schema は必須パラメータです"
  else if tool_name = "get_table_details" then
    match getArg arguments "catalog", getArg arguments "schema", getArg arguments "table" with
    | some catalog, some schema, some table =>
      if catalog = "" ∨ schema = "" ∨ table = "" then
        "Error: catalog, schema, table は必須パラメータです"
      else
        match ops.get_table_details catalog schema table with
        | .error e => "エラー: " ++ e
        | .ok details => formatTableDetails details
    | _, _, _ => "Error: catalog, schema, table は必須パラメータです"
  else if tool_name = "get_related_tables" then
    match getArg arguments "catalog", getArg arguments "schema", getArg arguments "table" with
    | some catalog, some schema, some table =>
      if catalog = "" ∨ schema = "" ∨ table = "" then
        "Error: catalog, schema, table は必須パラメータです"
      else
        match ops.get_related_tables catalog schema table with
        | .error e => "エラー: " ++ e
        | .ok related => formatRelatedTables catalog schema table related
    | _, _, _ => "Error: catalog, schema, table は必須パラメータです"
  else
    "Error: 不明なツール名 '" ++ tool_name ++ "'"

/-!  Theorems settling the claims. -/

/-- Claim C9: response extraction is deterministic and idempotent — applying
`extract_text_from_response` to the same payload twice yields the same
extracted text.  The embedding is a pure function of the payload (the Python
function reads no state and uses no randomness), so the two applications are
definitionally equal. -/
theorem extract_deterministic (obj : Json) :
    extract_text_from_response obj = extract_text_from_response obj := rfl

/-- Claim C10: the tool-augmented orchestrator never mutates the caller's
message list.  Line 79 copies the list (`working_messages = messages.copy()`)
and the appends of lines 97 and 128 target only `working_messages`, so for
every oracle, tool executor, caller conversation and iteration budget the
caller-visible list after the call is exactly the input list. -/
theorem send_chat_with_tools_preserves_caller_messages
    (oracle : List Message → ModelMessage)
    (toolExec : String → Json → Except String String)
    (messages : List Message) (max_iterations : Nat) :
    (send_chat_with_tools oracle toolExec messages max_iterations).messagesAfter =
      messages := rfl

/-- Claim C1, counterexample: the payload `{"foo": 1}` matches none of the
known extraction shapes, yet `extract_text_from_response` does not fail — it
returns the `json.dumps` fallback text of src/app.py line 92 (here the
two-space-indented dump of the payload). -/
theorem extract_unmatched_payload_counterexample :
    extract_text_from_response (Json.obj [("foo", Json.num 1)]) =
      Json.str "\x7b\n  \"foo\": 1\n\x7d" := by
  simp only [extract_text_from_response, extractAfterStr, json_dumps, jsonDumpsVal,
    jsonDumpsMembers, jsonIndent]
  rfl

/-- Claim C1 (amended): for every payload that is not a direct string and
matches none of the extraction shapes (choices/message/content,
choices/text, candidates parts, flat keys), extraction returns the
`json.dumps(obj, ensure_ascii=False, indent=2)` fallback dump of the raw
payload as the text instead of raising a `ResponseFormatError`. -/
theorem extract_unmatched_payload_dumps (obj : Json)
    (hstr : ∀ s, obj ≠ Json.str s)
    (h2 : extractChoicesMessageContent obj = none)
    (h3 : extractChoicesText obj = none)
    (h4 : extractCandidatesParts obj = none)
    (h5 : extractFlatKeys obj = none) :
    extract_text_from_response obj = Json.str (json_dumps obj) := by
  cases obj with
  | str s => exact absurd rfl (hstr s)
  | null => simp [extract_text_from_response, extractAfterStr, h2, h3, h4, h5]
  | bool b => simp [extract_text_from_response, extractAfterStr, h2, h3, h4, h5]
  | num n => simp [extract_text_from_response, extractAfterStr, h2, h3, h4, h5]
  | arr xs => simp [extract_text_from_response, extractAfterStr, h2, h3, h4, h5]
  | obj kvs => simp [extract_text_from_response, extractAfterStr, h2, h3, h4, h5]

/-- Claim C1, witness for the amended theorem at the concrete no-shape payload
`{"bar": null}`. -/
theorem extract_unmatched_payload_dumps_witness :
    extract_text_from_response (Json.obj [("bar", Json.null)]) =
      Json.str (json_dumps (Json.obj [("bar", Json.null)])) :=
  extract_unmatched_payload_dumps (Json.obj [("bar", Json.null)])
    (fun s => by simp) rfl rfl rfl rfl

/-- Claim C4, counterexample: the missing-resource-id failure is not a
distinct error kind.  With no WAREHOUSE_ID configured, `_execute_sql` fails
with the generic SQL-failure wrapper around the missing-variable message
(the line-97 `RuntimeError` is caught at line 126 and re-wrapped like every
other failure), and an ordinary underlying failure whose message happens to
be the missing-variable text produces the *identical* error value — the
caller cannot distinguish the two kinds. -/
theorem execute_sql_error_kinds_counterexample :
    _execute_sql none (.error "boom") =
        .error (sqlFailureWrap warehouseUnsetMessage) ∧
      _execute_sql (some "warehouse-123") (.error warehouseUnsetMessage) =
        .error (sqlFailureWrap warehouseUnsetMessage) :=
  ⟨rfl, rfl⟩

/-- Claim C4 (amended): when the compute-resource identifier is unset (or
empty), `_execute_sql` fails with the single generic SQL-failure error
wrapping the "WAREHOUSE_ID is not set" message; in every other failure case
it fails with the same generic error wrapping the underlying message.  Both
failures share one error kind (`RuntimeError` with one wrapper prefix) and
are distinguishable only by the wrapped message text. -/
theorem execute_sql_single_error_kind (warehouse_id : Option String)
    (execute_statement : Except String StatementResponse) :
    (pyFalsyStr warehouse_id = true →
      _execute_sql warehouse_id execute_statement =
        .error (sqlFailureWrap warehouseUnsetMessage)) ∧
    (∀ e, pyFalsyStr warehouse_id = false → execute_statement = .error e →
      _execute_sql warehouse_id execute_statement = .error (sqlFailureWrap e)) := by
  constructor
  · intro h
    simp [_execute_sql, h]
  · intro e h he
    simp [_execute_sql, h, he]

/-- Claim C4, witness: both amended branches at concrete inputs. -/
theorem execute_sql_single_error_kind_witness :
    _execute_sql none (.ok ⟨none⟩) = .error (sqlFailureWrap warehouseUnsetMessage) ∧
      _execute_sql (some "wh-1") (.error "network down") =
        .error (sqlFailureWrap "network down") :=
  ⟨(execute_sql_single_error_kind none (.ok ⟨none⟩)).1 rfl,
    (execute_sql_single_error_kind (some "wh-1") (.error "network down")).2
      "network down" rfl rfl⟩

/-- Claim C8: when the statement-execution response carries a column manifest
but a null/absent row payload, `_execute_sql` succeeds with the column list
and an empty row sequence — the truthiness guard of line 118 leaves `rows`
at its `[]` initialisation instead of failing. -/
theorem execute_sql_null_rows_empty (warehouse_id : Option String)
    (cols : List ManifestColumn) (r : StatementResult)
    (hwh : pyFalsyStr warehouse_id = false)
    (hcols : r.manifest = some ⟨some ⟨some cols⟩⟩)
    (hne : cols ≠ [])
    (hrows : r.result = none ∨ r.result = some ⟨none⟩) :
    _execute_sql warehouse_id (.ok ⟨some r⟩) =
      .ok ⟨cols.map (fun col => col.name), []⟩ := by
  rcases hrows with h | h <;>
    simp [_execute_sql, hwh, hcols, h, hne]

/-- Claim C8, witness: a concrete response with two manifest columns and an
absent row payload. -/
theorem execute_sql_null_rows_empty_witness :
    _execute_sql (some "wh-1")
        (.ok ⟨some ⟨some ⟨some ⟨some [⟨"c1"⟩, ⟨"c2"⟩]⟩⟩, none⟩⟩) =
      .ok ⟨["c1", "c2"], []⟩ :=
  execute_sql_null_rows_empty (some "wh-1") [⟨"c1"⟩, ⟨"c2"⟩]
    ⟨some ⟨some ⟨some [⟨"c1"⟩, ⟨"c2"⟩]⟩⟩, none⟩ rfl rfl (by simp) (Or.inl rfl)

/-- Appending a user/assistant turn preserves the head-system invariant:
only "user" and "assistant" roles are appended (src/app.py lines 133, 149). -/
theorem appendTurn_system_invariant (turn : Option (String × String)) (ms : List Message)
    (h : ∃ m rest, ms = m :: rest ∧ m.role = "system" ∧ ∀ m2 ∈ rest, m2.role ≠ "system") :
    ∃ m rest, appendTurn turn ms = m :: rest ∧ m.role = "system" ∧
      ∀ m2 ∈ rest, m2.role ≠ "system" := by
  obtain ⟨m, rest, rfl, hrole, hrest⟩ := h
  cases turn with
  | none => exact ⟨m, rest, rfl, hrole, hrest⟩
  | some pr =>
    refine ⟨m, rest ++ [mkChatMessage "user" pr.1] ++ [mkChatMessage "assistant" pr.2],
      by simp [appendTurn], hrole, ?_⟩
    intro m2 hm2
    simp only [List.mem_append, List.mem_singleton] at hm2
    rcases hm2 with (hm2 | rfl) | rfl
    · exact hrest m2 hm2
    · simp [mkChatMessage]
    · simp [mkChatMessage]

/-- Claim C7: in every reachable conversation state of the src/app.py session
lifecycle, the message at index 0 has role "system" and is the only system
message, and a system-prompt change replaces the message at index 0 (keeping
the rest of the conversation) rather than appending or duplicating it. -/
theorem system_message_invariant :
    (∀ ms, ReachableConversation ms →
      ∃ m rest, ms = m :: rest ∧ m.role = "system" ∧ ∀ m2 ∈ rest, m2.role ≠ "system") ∧
    (∀ p m rest, replaceSystem p (m :: rest) = mkChatMessage "system" p :: rest) := by
  constructor
  · intro ms h
    induction h with
    | first p turn =>
      apply appendTurn_system_invariant
      exact ⟨mkChatMessage "system" p, [], rfl, rfl, by simp⟩
    | next p turn hr ih =>
      apply appendTurn_system_invariant
      obtain ⟨m, rest, rfl, _, hrest⟩ := ih
      exact ⟨mkChatMessage "system" p, rest, rfl, rfl, hrest⟩
    | clear p hr ih =>
      exact ⟨mkChatMessage "system" p, [], rfl, rfl, by simp⟩
  · intro p m rest
    rfl

/-- Claim C7, witness: the invariant at the concrete reachable conversation
obtained from a first script run with prompt "hi" answered by "hello", and
the index-0 replacement at a concrete conversation. -/
theorem system_message_invariant_witness :
    (∃ m rest, scriptRun true "be helpful" (some ("hi", "hello")) [] = m :: rest ∧
      m.role = "system" ∧ ∀ m2 ∈ rest, m2.role ≠ "system") ∧
    replaceSystem "be terse" (mkChatMessage "system" "be helpful" :: [mkChatMessage "user" "hi"]) =
      mkChatMessage "system" "be terse" :: [mkChatMessage "user" "hi"] :=
  ⟨system_message_invariant.1 _ (ReachableConversation.first "be helpful" (some ("hi", "hello"))),
    system_message_invariant.2 "be terse" (mkChatMessage "system" "be helpful")
      [mkChatMessage "user" "hi"]⟩

/-- When every tool call in a batch carries well-formed JSON arguments,
`runToolCalls` succeeds and produces exactly one tool-role message per
request, with matching `tool_call_id`s in the same relative order. -/
theorem runToolCalls_ok (toolExec : String → Json → Except String String)
    (tcs : List ToolCall)
    (h : ∀ tc ∈ tcs, (json_loads tc.function.arguments).isSome = true) :
    ∃ msgs, runToolCalls toolExec tcs = .ok msgs ∧
      msgs.map Message.tool_call_id = tcs.map (fun tc => some tc.id) ∧
      ∀ m ∈ msgs, m.role = "tool" := by
  induction tcs with
  | nil => exact ⟨[], rfl, rfl, by simp⟩
  | cons tc rest ih =>
    obtain ⟨args, hargs⟩ := Option.isSome_iff_exists.mp (h tc (by simp))
    obtain ⟨msgs, hm, hmap, hrole⟩ := ih (fun tc2 htc2 => h tc2 (by simp [htc2]))
    refine ⟨⟨"tool",
        some (match toolExec tc.function.name args with
          | .ok s => s
          | .error e => "Error executing tool: " ++ e),
        some tc.id, []⟩ :: msgs, ?_, ?_, ?_⟩
    · simp [runToolCalls, hargs, hm]
    · simp [hmap]
    · intro m hm2
      rcases List.mem_cons.mp hm2 with rfl | hm3
      · rfl
      · exact hrole m hm3

/-- Under a model that always requests tools with well-formed arguments, the
orchestration loop consumes its entire budget and returns the fixed apology,
performing exactly one model call per remaining iteration. -/
theorem loop_always_tool_calls (oracle : List Message → ModelMessage)
    (toolExec : String → Json → Except String String)
    (halways : ∀ ms, (oracle ms).tool_calls ≠ [])
    (hparse : ∀ ms, ∀ tc ∈ (oracle ms).tool_calls,
      (json_loads tc.function.arguments).isSome = true) :
    ∀ n working, sendChatWithToolsLoop oracle toolExec n working =
      (.ok iterationLimitApology, n) := by
  intro n
  induction n with
  | zero => intro working; rfl
  | succ n ih =>
    intro working
    obtain ⟨msgs, hm, _, _⟩ :=
      runToolCalls_ok toolExec (oracle working).tool_calls (hparse working)
    have hne : (oracle working).tool_calls.isEmpty = false := by
      simpa [List.isEmpty_iff] using halways working
    simp [sendChatWithToolsLoop, hne, hm, ih]

/-- Claim C2, counterexample: `c2BadOracle` answers every request with a
tool-call request (its arguments string "x" is not valid JSON). -/
def c2BadOracle : List Message → ModelMessage :=
  fun _ => ⟨none, [⟨"call-1", "function", ⟨"list_tables", "x"⟩⟩]⟩

/-- Claim C2, counterexample: against a model that answers every request with
a tool-call request whose arguments string is `"x"` (not valid JSON), the
orchestrator with budget 5 performs only one model round-trip and raises the
`json.loads` decode error of src/dbx_serving_client.py line 116 instead of
returning the fixed apology text. -/
theorem iteration_limit_counterexample :
    (send_chat_with_tools c2BadOracle (fun _ _ => .ok "") [] 5).modelCalls = 1 ∧
      (send_chat_with_tools c2BadOracle (fun _ _ => .ok "") [] 5).result =
        .error (.jsonDecodeError "x") :=
  ⟨rfl, rfl⟩

/-- Claim C2 (amended): given a model that answers every request with at
least one tool-call request, each carrying a well-formed JSON arguments
string, `send_chat_with_tools` with the default budget of 5 performs exactly
5 model round-trips (so no 6th call), returns the fixed degraded apology
text, and raises no error. -/
theorem iteration_limit_degraded (oracle : List Message → ModelMessage)
    (toolExec : String → Json → Except String String) (messages : List Message)
    (halways : ∀ ms, (oracle ms).tool_calls ≠ [])
    (hparse : ∀ ms, ∀ tc ∈ (oracle ms).tool_calls,
      (json_loads tc.function.arguments).isSome = true) :
    (send_chat_with_tools oracle toolExec messages 5).result =
        .ok iterationLimitApology ∧
      (send_chat_with_tools oracle toolExec messages 5).modelCalls = 5 := by
  have h := loop_always_tool_calls oracle toolExec halways hparse 5 messages
  exact ⟨by simp [send_chat_with_tools, h], by simp [send_chat_with_tools, h]⟩

/-- Claim C2, witness oracle: always requests one tool call with the valid
arguments string `"{}"`. -/
def c2Oracle : List Message → ModelMessage :=
  fun _ => ⟨none, [⟨"call-1", "function", ⟨"list_tables", "\x7b\x7d"⟩⟩]⟩

/-- Claim C2, witness for the amended theorem at a concrete always-tool-call
model with parseable arguments. -/
theorem iteration_limit_degraded_witness :
    (send_chat_with_tools c2Oracle (fun _ _ => .ok "") [] 5).result =
        .ok iterationLimitApology ∧
      (send_chat_with_tools c2Oracle (fun _ _ => .ok "") [] 5).modelCalls = 5 :=
  iteration_limit_degraded c2Oracle (fun _ _ => .ok "") []
    (fun ms => by simp [c2Oracle])
    (fun ms tc htc => by
      simp only [c2Oracle, List.mem_singleton] at htc
      subst htc
      decide)

/-- Claim C3, counterexample: a single tool-call request with id "a" whose
arguments string "oops" is not valid JSON. -/
def c3BadCall : ToolCall :=
  ⟨"a", "function", ⟨"get_table_details", "oops"⟩⟩

/-- Claim C3, counterexample oracle: always answers with the request above. -/
def c3BadOracle : List Message → ModelMessage :=
  fun _ => ⟨none, [c3BadCall]⟩

/-- Claim C3, counterexample: the tool-call request with id "a" whose
arguments do not parse as JSON produces no tool-role message at all —
processing the batch raises the line-116 `json.loads` error, and the
orchestrator call aborts with that exception after one model round-trip
instead of appending a message with `tool_call_id = "a"`. -/
theorem tool_round_trip_counterexample :
    runToolCalls (fun _ _ => .ok "ok") [c3BadCall] =
        .error (.jsonDecodeError "oops") ∧
      (send_chat_with_tools c3BadOracle (fun _ _ => .ok "ok") [] 5).result =
        .error (.jsonDecodeError "oops") ∧
      (send_chat_with_tools c3BadOracle (fun _ _ => .ok "ok") [] 5).modelCalls = 1 :=
  ⟨rfl, rfl, rfl⟩

/-- Claim C3 (amended): for every model response containing tool-call
requests, provided each request's arguments string is well-formed JSON, the
batch produces exactly one tool-role message per request with
`tool_call_id` equal to that request's id, in the same relative order as the
requests, and the loop appends the assistant message followed by all of
these tool messages to the working conversation before issuing the next
model call. -/
theorem tool_round_trip (oracle : List Message → ModelMessage)
    (toolExec : String → Json → Except String String)
    (n : Nat) (working : List Message)
    (hne : (oracle working).tool_calls ≠ [])
    (hparse : ∀ tc ∈ (oracle working).tool_calls,
      (json_loads tc.function.arguments).isSome = true) :
    ∃ toolMsgs,
      runToolCalls toolExec (oracle working).tool_calls = .ok toolMsgs ∧
      toolMsgs.map Message.tool_call_id =
        (oracle working).tool_calls.map (fun tc => some tc.id) ∧
      (∀ m ∈ toolMsgs, m.role = "tool") ∧
      sendChatWithToolsLoop oracle toolExec (n + 1) working =
        ((sendChatWithToolsLoop oracle toolExec n
            (working ++ [assistantMessageOf (oracle working)] ++ toolMsgs)).1,
          (sendChatWithToolsLoop oracle toolExec n
            (working ++ [assistantMessageOf (oracle working)] ++ toolMsgs)).2 + 1) := by
  obtain ⟨msgs, hm, hmap, hrole⟩ :=
    runToolCalls_ok toolExec (oracle working).tool_calls hparse
  have hempty : (oracle working).tool_calls.isEmpty = false := by
    simpa [List.isEmpty_iff] using hne
  refine ⟨msgs, hm, hmap, hrole, ?_⟩
  simp [sendChatWithToolsLoop, hempty, hm, List.append_assoc]

/-- Claim C3, witness oracle: one response with two tool-call requests, ids
"a" then "b", both with well-formed JSON arguments. -/
def c3Oracle : List Message → ModelMessage :=
  fun _ => ⟨some "need tools",
    [⟨"a", "function", ⟨"list_tables", "\x7b\x7d"⟩⟩,
     ⟨"b", "function", ⟨"get_table_details", "\x7b\"catalog\": \"c\"\x7d"⟩⟩]⟩

/-- Claim C3, witness for the amended theorem at the concrete two-request
response, budget-remainder 0 and an empty working conversation. -/
theorem tool_round_trip_witness :
    ∃ toolMsgs,
      runToolCalls (fun _ _ => .ok "ok") (c3Oracle []).tool_calls = .ok toolMsgs ∧
      toolMsgs.map Message.tool_call_id =
        (c3Oracle []).tool_calls.map (fun tc => some tc.id) ∧
      (∀ m ∈ toolMsgs, m.role = "tool") ∧
      sendChatWithToolsLoop c3Oracle (fun _ _ => .ok "ok") (0 + 1) [] =
        ((sendChatWithToolsLoop c3Oracle (fun _ _ => .ok "ok") 0
            ([] ++ [assistantMessageOf (c3Oracle [])] ++ toolMsgs)).1,
          (sendChatWithToolsLoop c3Oracle (fun _ _ => .ok "ok") 0
            ([] ++ [assistantMessageOf (c3Oracle [])] ++ toolMsgs)).2 + 1) :=
  tool_round_trip c3Oracle (fun _ _ => .ok "ok") 0 []
    (by simp [c3Oracle])
    (by
      intro tc htc
      simp only [c3Oracle, List.mem_cons, List.not_mem_nil, or_false] at htc
      rcases htc with rfl | rfl <;> decide)

/-- Claim C6: the Tool Registry `execute_tool` converts every failure mode
into conversational text and never propagates an exception (the embedding is
total with result type `String`, mirroring the catch-all handlers of lines
357-362).  Specifically: a call with a missing or empty required argument
returns the formatted missing-parameter text; an unknown tool name returns
the formatted unknown-tool text; and a `MetadataError` (`RuntimeError`) from
the underlying metadata call is converted to the formatted
`"エラー: <message>"` text. -/
theorem execute_tool_errors_conversational (ops : UCOps) (tool_name : String)
    (arguments : List (String × String)) :
    (tool_name = "list_tables" →
      (pyFalsyStr (getArg arguments "catalog") = true ∨
        pyFalsyStr (getArg arguments "schema") = true) →
      execute_tool ops tool_name arguments = "Error: catalog と schema は必須パラメータです") ∧
    (tool_name = "get_table_details" →
      (pyFalsyStr (getArg arguments "catalog") = true ∨
        pyFalsyStr (getArg arguments "schema") = true ∨
        pyFalsyStr (getArg arguments "table") = true) →
      execute_tool ops tool_name arguments =
        "Error: catalog, schema, table は必須パラメータです") ∧
    (tool_name = "get_related_tables" →
      (pyFalsyStr (getArg arguments "catalog") = true ∨
        pyFalsyStr (getArg arguments "schema") = true ∨
        pyFalsyStr (getArg arguments "table") = true) →
      execute_tool ops tool_name arguments =
        "Error: catalog, schema, table は必須パラメータです") ∧
    (tool_name ≠ "list_tables" → tool_name ≠ "get_table_details" →
      tool_name ≠ "get_related_tables" →
      execute_tool ops tool_name arguments = "Error: 不明なツール名 '" ++ tool_name ++ "'") ∧
    (∀ c s e, tool_name = "list_tables" →
      getArg arguments "catalog" = some c → c ≠ "" →
      getArg arguments "schema" = some s → s ≠ "" →
      ops.list_tables c s = .error e →
      execute_tool ops tool_name arguments = "エラー: " ++ e) ∧
    (∀ c s t e, tool_name = "get_table_details" →
      getArg arguments "catalog" = some c → c ≠ "" →
      getArg arguments "schema" = some s → s ≠ "" →
      getArg arguments "table" = some t → t ≠ "" →
      ops.get_table_details c s t = .error e →
      execute_tool ops tool_name arguments = "エラー: " ++ e) ∧
    (∀ c s t e, tool_name = "get_related_tables" →
      getArg arguments "catalog" = some c → c ≠ "" →
      getArg arguments "schema" = some s → s ≠ "" →
      getArg arguments "table" = some t → t ≠ "" →
      ops.get_related_tables c s t = .error e →
      execute_tool ops tool_name arguments = "エラー: " ++ e) := by
  refine ⟨?_, ?_, ?_, ?_, ?_, ?_, ?_⟩
  · rintro rfl h
    rcases hc : getArg arguments "catalog" with _ | c
    · simp [execute_tool, hc]
    · rcases hs : getArg arguments "schema" with _ | s
      · simp [execute_tool, hc, hs]
      · simp only [hc, hs, pyFalsyStr, beq_iff_eq] at h
        rcases h with rfl | rfl <;> simp [execute_tool, hc, hs]
  · rintro rfl h
    rcases hc : getArg arguments "catalog" with _ | c
    · simp [execute_tool, hc]
    · rcases hs : getArg arguments "schema" with _ | s
      · simp [execute_tool, hc, hs]
      · rcases ht : getArg arguments "table" with _ | t
        · simp [execute_tool, hc, hs, ht]
        · simp only [hc, hs, ht, pyFalsyStr, beq_iff_eq] at h
          rcases h with rfl | rfl | rfl <;> simp [execute_tool, hc, hs, ht]
  · rintro rfl h
    rcases hc : getArg arguments "catalog" with _ | c
    · simp [execute_tool, hc]
    · rcases hs : getArg arguments "schema" with _ | s
      · simp [execute_tool, hc, hs]
      · rcases ht : getArg arguments "table" with _ | t
        · simp [execute_tool, hc, hs, ht]
        · simp only [hc, hs, ht, pyFalsyStr, beq_iff_eq] at h
          rcases h with rfl | rfl | rfl <;> simp [execute_tool, hc, hs, ht]
  · intro h1 h2 h3
    simp [execute_tool, h1, h2, h3]
  · rintro c s e rfl hc hcne hs hsne herr
    simp [execute_tool, hc, hs, hcne, hsne, herr]
  · rintro c s t e rfl hc hcne hs hsne ht htne herr
    simp [execute_tool, hc, hs, ht, hcne, hsne, htne, herr]
  · rintro c s t e rfl hc hcne hs hsne ht htne herr
    simp [execute_tool, hc, hs, ht, hcne, hsne, htne, herr]

/-- Claim C6, witness registry whose underlying calls all succeed. -/
def c6OkOps : UCOps :=
  ⟨fun _ _ => .ok [], fun _ _ _ => .ok ⟨"c.s.t", "t", "c", "s", "MANAGED", "", []⟩,
    fun _ _ _ => .ok ⟨"t", [], []⟩⟩

/-- Claim C6, witness registry whose underlying calls all fail with the
`RuntimeError` message "boom". -/
def c6ErrOps : UCOps :=
  ⟨fun _ _ => .error "boom", fun _ _ _ => .error "boom", fun _ _ _ => .error "boom"⟩

/-- Claim C6, witness: concrete instances of each conjunct — a missing
argument, an empty-string argument, an unknown tool name, and a converted
underlying failure. -/
theorem execute_tool_errors_conversational_witness :
    execute_tool c6OkOps "list_tables" [("schema", "sales")] =
        "Error: catalog と schema は必須パラメータです" ∧
      execute_tool c6OkOps "get_table_details" [("catalog", "c")] =
        "Error: catalog, schema, table は必須パラメータです" ∧
      execute_tool c6OkOps "get_related_tables"
          [("catalog", "c"), ("schema", ""), ("table", "t")] =
        "Error: catalog, schema, table は必須パラメータです" ∧
      execute_tool c6OkOps "drop_table" [] = "Error: 不明なツール名 'drop_table'" ∧
      execute_tool c6ErrOps "list_tables" [("catalog", "c"), ("schema", "s")] =
        "エラー: boom" :=
  ⟨(execute_tool_errors_conversational c6OkOps "list_tables" [("schema", "sales")]).1
      rfl (Or.inl rfl),
    (execute_tool_errors_conversational c6OkOps "get_table_details" [("catalog", "c")]).2.1
      rfl (Or.inr (Or.inl rfl)),
    (execute_tool_errors_conversational c6OkOps "get_related_tables"
        [("catalog", "c"), ("schema", ""), ("table", "t")]).2.2.1
      rfl (Or.inr (Or.inl rfl)),
    (execute_tool_errors_conversational c6OkOps "drop_table" []).2.2.2.1
      (by decide) (by decide) (by decide),
    (execute_tool_errors_conversational c6ErrOps "list_tables"
        [("catalog", "c"), ("schema", "s")]).2.2.2.2.1
      "c" "s" "boom" rfl rfl (by decide) rfl (by decide) rfl⟩

/-- Column pairs contributed to the constraint `key` by the `referenced_by`
rows (shape `[source_table, constraint_name, source_column, target_column]`),
in row order. -/
def refByPairs (rows : List (List (Option String))) (key : Option String) : List ColumnPair :=
  rows.filterMap fun row =>
    match row with
    | [_, cn, sc, tc] => if cn = key then some ⟨sc, tc⟩ else none
    | _ => none

/-- Column pairs contributed to the constraint `key` by the `references` rows
(shape `[constraint_name, source_column, target_table, target_column]`), in
row order. -/
def refsPairs (rows : List (List (Option String))) (key : Option String) : List ColumnPair :=
  rows.filterMap fun row =>
    match row with
    | [cn, sc, _, tc] => if cn = key then some ⟨sc, tc⟩ else none
    | _ => none

/-- A list of length 4 is a literal 4-element list. -/
theorem length_four_shape {α : Type} :
    ∀ (row : List α), row.length = 4 → ∃ a b c d, row = [a, b, c, d]
  | [a, b, c, d], _ => ⟨a, b, c, d, rfl⟩
  | [], h => absurd h (by simp)
  | [_], h => absurd h (by simp)
  | [_, _], h => absurd h (by simp)
  | [_, _, _], h => absurd h (by simp)
  | _ :: _ :: _ :: _ :: _ :: _, h => absurd h (by simp)

/-- The constraint identifiers after a dict insertion: unchanged when the key
was present, extended by the key otherwise. -/
theorem insertEdge_keys (acc : List RelationshipEdge) (tbl key : Option String)
    (pair : ColumnPair) :
    (insertEdge acc tbl key pair).map RelationshipEdge.constraint =
      if key ∈ acc.map RelationshipEdge.constraint then acc.map RelationshipEdge.constraint
      else acc.map RelationshipEdge.constraint ++ [key] := by
  unfold insertEdge
  by_cases h : key ∈ acc.map RelationshipEdge.constraint
  · rw [if_pos h, if_pos h, List.map_map]
    apply List.map_congr_left
    intro e he
    by_cases h2 : e.constraint = key <;> simp [h2]
  · rw [if_neg h, if_neg h, List.map_map, List.map_append]
    congr 1
    · apply List.map_congr_left
      intro e he
      by_cases h2 : e.constraint = key <;> simp [h2]
    · simp

/-- Distinctness of constraint identifiers is preserved by insertion. -/
theorem insertEdge_nodup (acc : List RelationshipEdge) (tbl key : Option String)
    (pair : ColumnPair) (h : (acc.map RelationshipEdge.constraint).Nodup) :
    ((insertEdge acc tbl key pair).map RelationshipEdge.constraint).Nodup := by
  rw [insertEdge_keys]
  by_cases hk : key ∈ acc.map RelationshipEdge.constraint
  · rwa [if_pos hk]
  · rw [if_neg hk]
    simp [List.nodup_append, h, hk]

/-- Column characterisation after one insertion: every edge's column list is
its previous pairs plus the new pair exactly when its constraint is the
inserted key. -/
theorem insertEdge_cols (acc : List RelationshipEdge)
    (prev : Option String → List ColumnPair) (tbl key : Option String) (pair : ColumnPair)
    (hcols : ∀ e ∈ acc, e.columns = prev e.constraint)
    (hunseen : key ∉ acc.map RelationshipEdge.constraint → prev key = []) :
    ∀ e ∈ insertEdge acc tbl key pair,
      e.columns = prev e.constraint ++ (if key = e.constraint then [pair] else []) := by
  intro e he
  unfold insertEdge at he
  by_cases h : key ∈ acc.map RelationshipEdge.constraint
  · rw [if_pos h] at he
    rcases List.mem_map.mp he with ⟨e0, he0, rfl⟩
    by_cases h2 : e0.constraint = key
    · rw [if_pos h2]
      show e0.columns ++ [pair] = prev e0.constraint ++ _
      rw [hcols e0 he0, h2, if_pos rfl]
    · rw [if_neg h2]
      rw [hcols e0 he0, if_neg fun hk => h2 hk.symm, List.append_nil]
  · rw [if_neg h] at he
    rcases List.mem_map.mp he with ⟨e0, he0, rfl⟩
    rcases List.mem_append.mp he0 with he1 | he1
    · have hne : e0.constraint ≠ key := fun hk =>
        h (hk ▸ List.mem_map_of_mem RelationshipEdge.constraint he1)
      rw [if_neg hne, hcols e0 he1, if_neg fun hk => hne hk.symm, List.append_nil]
    · have he2 : e0 = ⟨tbl, key, []⟩ := by simpa using he1
      subst he2
      rw [if_pos rfl]
      show ([] : List ColumnPair) ++ [pair] = prev key ++ _
      rw [hunseen h, if_pos rfl]

/-- Keys absent from the edge list after an insertion still have no pairs. -/
theorem insertEdge_unseen (acc : List RelationshipEdge)
    (prev : Option String → List ColumnPair) (tbl key : Option String) (pair : ColumnPair)
    (hunseen : ∀ k, k ∉ acc.map RelationshipEdge.constraint → prev k = []) :
    ∀ k, k ∉ (insertEdge acc tbl key pair).map RelationshipEdge.constraint →
      prev k ++ (if key = k then [pair] else []) = [] := by
  intro k hk
  rw [insertEdge_keys] at hk
  by_cases h : key ∈ acc.map RelationshipEdge.constraint
  · rw [if_pos h] at hk
    have hkey : key ≠ k := fun he => hk (he ▸ h)
    rw [hunseen k hk, if_neg hkey]
    rfl
  · rw [if_neg h] at hk
    simp only [List.mem_append, List.mem_singleton, not_or] at hk
    obtain ⟨h1, h2⟩ := hk
    rw [hunseen k h1, if_neg fun he => h2 he.symm]
    rfl

/-- Appending one well-shaped `referenced_by` row extends exactly the pairs of
that row's constraint. -/
theorem refByPairs_append_row (seen : List (List (Option String)))
    (a b c d k : Option String) :
    refByPairs (seen ++ [[a, b, c, d]]) k =
      refByPairs seen k ++ (if b = k then [(⟨c, d⟩ : ColumnPair)] else []) := by
  unfold refByPairs
  rw [List.filterMap_append]
  congr 1
  by_cases h : b = k <;> simp [h]

/-- Appending one well-shaped `references` row extends exactly the pairs of
that row's constraint. -/
theorem refsPairs_append_row (seen : List (List (Option String)))
    (a b c d k : Option String) :
    refsPairs (seen ++ [[a, b, c, d]]) k =
      refsPairs seen k ++ (if a = k then [(⟨b, d⟩ : ColumnPair)] else []) := by
  unfold refsPairs
  rw [List.filterMap_append]
  congr 1
  by_cases h : a = k <;> simp [h]

/-- A `referenced_by` row contributes a pair, so its constraint's pair list is
non-empty. -/
theorem refByPairs_ne_nil (rows : List (List (Option String)))
    (a b c d : Option String) (h : [a, b, c, d] ∈ rows) : refByPairs rows b ≠ [] := by
  apply List.ne_nil_of_mem (a := (⟨c, d⟩ : ColumnPair))
  exact List.mem_filterMap.mpr ⟨[a, b, c, d], h, by simp⟩

/-- A `references` row contributes a pair, so its constraint's pair list is
non-empty. -/
theorem refsPairs_ne_nil (rows : List (List (Option String)))
    (a b c d : Option String) (h : [a, b, c, d] ∈ rows) : refsPairs rows a ≠ [] := by
  apply List.ne_nil_of_mem (a := (⟨b, d⟩ : ColumnPair))
  exact List.mem_filterMap.mpr ⟨[a, b, c, d], h, by simp⟩

/-- Induction invariant for the `referenced_by` grouping loop: starting from
an edge accumulator with distinct constraints whose columns record the pairs
of the rows already `seen`, processing well-shaped rows succeeds and
maintains distinctness together with the full column characterisation. -/
theorem groupReferencedByGo_spec :
    ∀ (rows : List (List (Option String))) (acc : List RelationshipEdge)
      (seen : List (List (Option String))),
      (∀ row ∈ rows, row.length = 4) →
      (acc.map RelationshipEdge.constraint).Nodup →
      (∀ e ∈ acc, e.columns = refByPairs seen e.constraint) →
      (∀ k, k ∉ acc.map RelationshipEdge.constraint → refByPairs seen k = []) →
      ∃ res, groupReferencedByGo acc rows = .ok res ∧
        (res.map RelationshipEdge.constraint).Nodup ∧
        (∀ e ∈ res, e.columns = refByPairs (seen ++ rows) e.constraint) ∧
        (∀ k, k ∉ res.map RelationshipEdge.constraint → refByPairs (seen ++ rows) k = []) := by
  intro rows
  induction rows with
  | nil =>
    intro acc seen _ h1 h2 h3
    exact ⟨acc, rfl, h1, by simpa using h2, by simpa using h3⟩
  | cons row rest ih =>
    intro acc seen harity h1 h2 h3
    obtain ⟨a, b, c, d, rfl⟩ := length_four_shape row (harity row (by simp))
    have h1' := insertEdge_nodup acc a b ⟨c, d⟩ h1
    have h2' : ∀ e ∈ insertEdge acc a b ⟨c, d⟩,
        e.columns = refByPairs (seen ++ [[a, b, c, d]]) e.constraint := by
      intro e he
      rw [refByPairs_append_row]
      exact insertEdge_cols acc (refByPairs seen) a b ⟨c, d⟩ h2 (h3 b) e he
    have h3' : ∀ k, k ∉ (insertEdge acc a b ⟨c, d⟩).map RelationshipEdge.constraint →
        refByPairs (seen ++ [[a, b, c, d]]) k = [] := by
      intro k hk
      rw [refByPairs_append_row]
      exact insertEdge_unseen acc (refByPairs seen) a b ⟨c, d⟩ h3 k hk
    obtain ⟨res, hres, hn, hc, hu⟩ :=
      ih (insertEdge acc a b ⟨c, d⟩) (seen ++ [[a, b, c, d]])
        (fun r hr => harity r (by simp [hr])) h1' h2' h3'
    refine ⟨res, ?_, hn, ?_, ?_⟩
    · rw [show groupReferencedByGo acc ([a, b, c, d] :: rest) =
        groupReferencedByGo (insertEdge acc a b ⟨c, d⟩) rest from by
          simp [groupReferencedByGo, unpack4]]
      exact hres
    · intro e he
      have hce := hc e he
      rwa [List.append_assoc] at hce
    · intro k hk
      have hku := hu k hk
      rwa [List.append_assoc] at hku

/-- Induction invariant for the `references` grouping loop, mirror image of
`groupReferencedByGo_spec`. -/
theorem groupReferencesGo_spec :
    ∀ (rows : List (List (Option String))) (acc : List RelationshipEdge)
      (seen : List (List (Option String))),
      (∀ row ∈ rows, row.length = 4) →
      (acc.map RelationshipEdge.constraint).Nodup →
      (∀ e ∈ acc, e.columns = refsPairs seen e.constraint) →
      (∀ k, k ∉ acc.map RelationshipEdge.constraint → refsPairs seen k = []) →
      ∃ res, groupReferencesGo acc rows = .ok res ∧
        (res.map RelationshipEdge.constraint).Nodup ∧
        (∀ e ∈ res, e.columns = refsPairs (seen ++ rows) e.constraint) ∧
        (∀ k, k ∉ res.map RelationshipEdge.constraint → refsPairs (seen ++ rows) k = []) := by
  intro rows
  induction rows with
  | nil =>
    intro acc seen _ h1 h2 h3
    exact ⟨acc, rfl, h1, by simpa using h2, by simpa using h3⟩
  | cons row rest ih =>
    intro acc seen harity h1 h2 h3
    obtain ⟨a, b, c, d, rfl⟩ := length_four_shape row (harity row (by simp))
    have h1' := insertEdge_nodup acc c a ⟨b, d⟩ h1
    have h2' : ∀ e ∈ insertEdge acc c a ⟨b, d⟩,
        e.columns = refsPairs (seen ++ [[a, b, c, d]]) e.constraint := by
      intro e he
      rw [refsPairs_append_row]
      exact insertEdge_cols acc (refsPairs seen) c a ⟨b, d⟩ h2 (h3 a) e he
    have h3' : ∀ k, k ∉ (insertEdge acc c a ⟨b, d⟩).map RelationshipEdge.constraint →
        refsPairs (seen ++ [[a, b, c, d]]) k = [] := by
      intro k hk
      rw [refsPairs_append_row]
      exact insertEdge_unseen acc (refsPairs seen) c a ⟨b, d⟩ h3 k hk
    obtain ⟨res, hres, hn, hc, hu⟩ :=
      ih (insertEdge acc c a ⟨b, d⟩) (seen ++ [[a, b, c, d]])
        (fun r hr => harity r (by simp [hr])) h1' h2' h3'
    refine ⟨res, ?_, hn, ?_, ?_⟩
    · rw [show groupReferencesGo acc ([a, b, c, d] :: rest) =
        groupReferencesGo (insertEdge acc c a ⟨b, d⟩) rest from by
          simp [groupReferencesGo, unpack4]]
      exact hres
    · intro e he
      have hce := hc e he
      rwa [List.append_assoc] at hce
    · intro k hk
      have hku := hu k hk
      rwa [List.append_assoc] at hku

/-- Claim C5: in the `get_related_tables` grouping, any two result rows
sharing the same constraint identifier collapse into a single
`RelationshipEdge` — the produced edges have pairwise-distinct constraint
identifiers, every edge's column-pair sequence is exactly the pairs of the
rows carrying its constraint (one pair per row, in row order, so a composite
key yields one edge with multiple pairs), and every row's constraint is
represented by an edge; for both the `referenced_by` and `references`
sides. -/
theorem related_tables_composite_key_grouping
    (rbRows refRows : List (List (Option String)))
    (hrb : ∀ row ∈ rbRows, row.length = 4)
    (href : ∀ row ∈ refRows, row.length = 4) :
    ∃ rbEdges refEdges,
      group_referenced_by rbRows = .ok rbEdges ∧
      group_references refRows = .ok refEdges ∧
      (rbEdges.map RelationshipEdge.constraint).Nodup ∧
      (refEdges.map RelationshipEdge.constraint).Nodup ∧
      (∀ e ∈ rbEdges, e.columns = refByPairs rbRows e.constraint) ∧
      (∀ e ∈ refEdges, e.columns = refsPairs refRows e.constraint) ∧
      (∀ a b c d, [a, b, c, d] ∈ rbRows →
        b ∈ rbEdges.map RelationshipEdge.constraint) ∧
      (∀ a b c d, [a, b, c, d] ∈ refRows →
        a ∈ refEdges.map RelationshipEdge.constraint) := by
  obtain ⟨rbEdges, hrb1, hrb2, hrb3, hrb4⟩ :=
    groupReferencedByGo_spec rbRows [] [] hrb (by simp) (by simp) (fun k _ => rfl)
  obtain ⟨refEdges, href1, href2, href3, href4⟩ :=
    groupReferencesGo_spec refRows [] [] href (by simp) (by simp) (fun k _ => rfl)
  refine ⟨rbEdges, refEdges, hrb1, href1, hrb2, href2, ?_, ?_, ?_, ?_⟩
  · intro e he
    simpa using hrb3 e he
  · intro e he
    simpa using href3 e he
  · intro a b c d hmem
    by_contra hb
    exact refByPairs_ne_nil rbRows a b c d hmem (by simpa using hrb4 b hb)
  · intro a b c d hmem
    by_contra ha
    exact refsPairs_ne_nil refRows a b c d hmem (by simpa using href4 a ha)

/-- Claim C5, witness rows: a composite foreign key producing two
`referenced_by` rows with the same constraint identifier "fk1". -/
def c5RbRows : List (List (Option String)) :=
  [[some "orders", some "fk1", some "a", some "x"],
   [some "orders", some "fk1", some "b", some "y"]]

/-- Claim C5, witness rows for the `references` side. -/
def c5RefRows : List (List (Option String)) :=
  [[some "fk9", some "p", some "countries", some "q"]]

/-- Claim C5, witness: the grouping guarantees at the concrete composite-key
rows, together with the concrete evaluation — the two "fk1" rows collapse
into one edge carrying both column pairs. -/
theorem related_tables_composite_key_grouping_witness :
    group_referenced_by c5RbRows =
        .ok [⟨some "orders", some "fk1",
          [⟨some "a", some "x"⟩, ⟨some "b", some "y"⟩]⟩] ∧
    ∃ rbEdges refEdges,
      group_referenced_by c5RbRows = .ok rbEdges ∧
      group_references c5RefRows = .ok refEdges ∧
      (rbEdges.map RelationshipEdge.constraint).Nodup ∧
      (refEdges.map RelationshipEdge.constraint).Nodup ∧
      (∀ e ∈ rbEdges, e.columns = refByPairs c5RbRows e.constraint) ∧
      (∀ e ∈ refEdges, e.columns = refsPairs c5RefRows e.constraint) ∧
      (∀ a b c d, [a, b, c, d] ∈ c5RbRows →
        b ∈ rbEdges.map RelationshipEdge.constraint) ∧
      (∀ a b c d, [a, b, c, d] ∈ c5RefRows →
        a ∈ refEdges.map RelationshipEdge.constraint) :=
  ⟨rfl, related_tables_composite_key_grouping c5RbRows c5RefRows (by decide) (by decide)⟩
